import Mathlib

/-!
A verification development for the viralbox-shortener bot
(`src/shortener.py`).  The Python source is shallowly embedded below:
pure functions become Lean functions, the database and the external
shortening service become read-only oracles in an `Env` record, and the
side effects of `process_message` (messages sent, shortening calls made,
audit-log inserts, settings writes) are collected in an `Effects` record.
Python whitespace (the class matched by `\s` and stripped by `str.strip`)
is modelled over its ASCII part; none of the statements below depend on
non-ASCII whitespace.
-/

namespace Viralbox

/-- ASCII part of Python's whitespace class (`\s` in `re`, `str.strip`,
`str.split`). -/
def pyIsSpace (c : Char) : Bool :=
  c == ' ' || c == '\t' || c == '\n' || c == '\r' || c == '\x0b' || c == '\x0c'

/-- Negation of `pyIsSpace`, the character class `[^\s]` of the URL regex. -/
def notSpace (c : Char) : Bool := !pyIsSpace c

/-- Test whether the character list `p` is an initial segment of `l`;
this is the core of Python's `str.startswith`. -/
def listIsInitial : List Char → List Char → Bool
  | [], _ => true
  | _ :: _, [] => false
  | a :: as, b :: bs => a == b && listIsInitial as bs

/-- Python `t.startswith(p)`. -/
def pyStartsWith (t p : String) : Bool := listIsInitial p.toList t.toList

/-- Python `s.strip()` (over the ASCII whitespace class). -/
def pyStrip (s : String) : String :=
  String.mk (((s.toList.dropWhile pyIsSpace).reverse.dropWhile pyIsSpace).reverse)

/-- Python `s.split(maxsplit=1)`: split on runs of whitespace, keeping at
most two fields; leading and trailing whitespace produce no fields. -/
def pySplit1 (s : String) : List String :=
  let t := s.toList.dropWhile pyIsSpace
  if t.isEmpty then []
  else
    let tok := t.takeWhile notSpace
    let rest := (t.drop tok.length).dropWhile pyIsSpace
    if rest.isEmpty then [String.mk tok]
    else [String.mk tok, String.mk rest]

/-- Length of the scheme matched by `https?://` at the head of `l`:
`https://` (8 characters) is preferred by the greedy `s?`, otherwise
`http://` (7 characters). -/
def schemeLen (l : List Char) : Option Nat :=
  if listIsInitial "https://".toList l then some 8
  else if listIsInitial "http://".toList l then some 7
  else none

/-- Scanner of `re.findall(r'(https?://[^\s]+)', text)` (source
`extract_urls`, src/shortener.py:260-263): at each position, if the
scheme matches and at least one non-whitespace character follows it
(the `+` of `[^\s]+`), the maximal non-whitespace run from the scheme
start is emitted and scanning resumes after it (matches do not overlap);
otherwise scanning advances one character.  The fuel argument is the
length of the remaining list, which bounds the number of steps. -/
def extractUrlsAux : Nat → List Char → List String
  | 0, _ => []
  | _, [] => []
  | Nat.succ fuel, c :: rest =>
    match schemeLen (c :: rest) with
    | some k =>
      let tok := (c :: rest).takeWhile notSpace
      if k < tok.length then
        String.mk tok :: extractUrlsAux fuel ((c :: rest).drop tok.length)
      else
        extractUrlsAux fuel rest
    | none => extractUrlsAux fuel rest

/-- Source `extract_urls(text)`: `re.findall(r'(https?://[^\s]+)', text)`;
empty input yields `[]` (the `if not text` guard). -/
def extract_urls (text : String) : List String :=
  extractUrlsAux text.toList.length text.toList

/-- The literal reading of the claimed contract for `extractUrls`: the
substrings that start with `http://` or `https://` and continue until
the first whitespace character, in left-to-right order of appearance of
their starting positions, duplicates retained. -/
def claimUrls (s : String) : List String :=
  (List.range s.toList.length).filterMap (fun i =>
    match schemeLen (s.toList.drop i) with
    | some _ => some (String.mk ((s.toList.drop i).takeWhile notSpace))
    | none => none)

/-- Position-based description of the scan actually performed by the
source regex: from position `i`, a match requires the scheme plus at
least one further non-whitespace character, extends to the first
whitespace, and the scan resumes after the match. -/
def specScanAux (s : List Char) : Nat → Nat → List String
  | 0, _ => []
  | Nat.succ fuel, i =>
    match schemeLen (s.drop i) with
    | some k =>
      let tok := (s.drop i).takeWhile notSpace
      if k < tok.length then
        String.mk tok :: specScanAux s fuel (i + tok.length)
      else
        specScanAux s fuel (i + 1)
    | none =>
      if i < s.length then specScanAux s fuel (i + 1) else []

/-- The amended contract for `extractUrls`, stated as a position-based
left-to-right non-overlapping scan. -/
def specUrls (s : String) : List String :=
  specScanAux s.toList s.toList.length 0

/-- The settings record returned by `get_user_settings`
(src/shortener.py:156-172): always three present fields. -/
structure UserSettings where
  header : String
  footer : String
  caption_mode : String
deriving DecidableEq

/-- A stored `user_settings` document: each field may be absent
(MongoDB key missing). -/
structure SettingsDoc where
  header : Option String
  footer : Option String
  caption_mode : Option String
deriving DecidableEq

/-- Source `get_user_settings(user_id)` (src/shortener.py:156-172) over a
store mapping each user id to its document (or `none` when missing; a
read failure is caught in the source and also yields the defaults, so it
is covered by the `none` case). -/
def get_user_settings (store : Int → Option SettingsDoc) (user_id : Int) :
    UserSettings :=
  match store user_id with
  | some doc => ⟨doc.header.getD "", doc.footer.getD "", doc.caption_mode.getD "remove"⟩
  | none => ⟨"", "", "remove"⟩

/-- Effect of MongoDB `$unset` of one field name on a stored document
(unknown field names unset nothing). -/
def clearDocField (field : String) (d : SettingsDoc) : SettingsDoc :=
  if field = "header" then { d with header := none }
  else if field = "footer" then { d with footer := none }
  else if field = "caption_mode" then { d with caption_mode := none }
  else d

/-- Source `delete_user_setting(user_id, field)` (src/shortener.py:188-197):
`update_one` with `$unset` and no upsert, so a missing document stays
missing and only the named field of the user's document is removed. -/
def delete_user_setting (store : Int → Option SettingsDoc) (user_id : Int)
    (field : String) : Int → Option SettingsDoc :=
  fun u => if u = user_id then (store u).map (clearDocField field) else store u

/-- Source `update_user_setting(user_id, field, value)`
(src/shortener.py:175-185): upsert of one field. -/
def update_user_setting (store : Int → Option SettingsDoc) (user_id : Int)
    (field : String) (value : String) : Int → Option SettingsDoc :=
  fun u =>
    if u = user_id then
      let d := (store u).getD ⟨none, none, none⟩
      some (if field = "header" then { d with header := some value }
            else if field = "footer" then { d with footer := some value }
            else if field = "caption_mode" then { d with caption_mode := some value }
            else d)
    else store u

/-- Source `build_caption(shortened_links, original_caption, settings)`
(src/shortener.py:203-230).  The Python `parts.append` loop is rendered
as list concatenation; `if header:` is string truthiness on the stripped
header, and the caption guard is the literal
`original_caption and original_caption.strip()`. -/
def build_caption (shortened_links : List String) (original_caption : String)
    (settings : UserSettings) : String :=
  let mode := settings.caption_mode
  let header := pyStrip settings.header
  let footer := pyStrip settings.footer
  let parts : List String :=
    if mode = "remove" then
      (if header ≠ "" then [header] else []) ++ shortened_links ++
        (if footer ≠ "" then [footer] else [])
    else if mode = "keep" then
      (if header ≠ "" then [header] else []) ++
        (if original_caption ≠ "" ∧ pyStrip original_caption ≠ "" then
          [pyStrip original_caption] else []) ++
        (if footer ≠ "" then [footer] else [])
    else []
  String.intercalate "\n" parts

/-- The claimed KEEP-mode composition, read literally: the raw header and
footer wrap the trimmed original caption. -/
def claimComposeKeep (header caption footer : String) : String :=
  String.intercalate "\n"
    ((if header ≠ "" then [header] else []) ++
     (if pyStrip caption ≠ "" then [pyStrip caption] else []) ++
     (if footer ≠ "" then [footer] else []))

/-- The claimed REMOVE-mode composition, read literally: the raw header
and footer wrap the shortened links, one per line. -/
def claimComposeRemove (header : String) (links : List String)
    (footer : String) : String :=
  String.intercalate "\n"
    ((if header ≠ "" then [header] else []) ++ links ++
     (if footer ≠ "" then [footer] else []))

/-- Media kinds recognised by `process_message` (src/shortener.py:456). -/
inductive MediaKind
  | photo | video | document | audio | voice | animation
deriving DecidableEq

/-- An inbound Telegram message as consumed by `process_message`:
`chat.id`, `from.id`, the optional `username`/`first_name`, optional
`text` and `caption`, and at most one media attachment carrying a file
id (for photos the source takes the last size's file id; the model keeps
only that resulting id). -/
structure Msg where
  chatId : Int
  userId : Int
  username : Option String
  firstName : Option String
  text : Option String
  caption : Option String
  media : Option (MediaKind × String)
deriving DecidableEq

/-- The trimmed message text: `msg.get("text", "").strip()`
(src/shortener.py:310). -/
def msgText (msg : Msg) : String := pyStrip (msg.text.getD "")

/-- Read-only oracles for the external world: the two keyed stores, the
shortening service (`none` for any failure: non-success status, network
error, timeout, bad body), and success/failure oracles for each kind of
database write. -/
structure Env where
  apiKeyStore : Int → Option String
  settingsStore : Int → Option SettingsDoc
  shorten : String → String → Option String
  linkInsertOk : String → String → Bool
  apiSaveOk : Int → String → Bool
  settingSetOk : Int → String → String → Bool
  settingDelOk : Int → String → Bool

/-- Observable effects of one `process_message` run: text replies sent,
media re-sent (chat id, kind, file id, caption included only when
non-empty, mirroring `resend_media`), urls passed to `shorten_url`,
successful `links` inserts, and the calls made to
`save_user_api_key` / `update_user_setting` / `delete_user_setting`. -/
structure Effects where
  replies : List (Int × String) := []
  mediaOut : List (Int × MediaKind × String × Option String) := []
  shortenCalls : List String := []
  linkWrites : List (String × String) := []
  apiKeySetCalls : List (Int × String) := []
  settingSetCalls : List (Int × String × String) := []
  settingUnsetCalls : List (Int × String) := []
deriving DecidableEq

/-- The empty effect record. -/
def Effects.empty : Effects := {}

/-- Python truthiness of `get_user_api_key`'s result (`if not api_key:`):
`None` and the empty string are falsy. -/
def pyStrFalsy : Option String → Bool
  | none => true
  | some s => s == ""

/-- Caption payload of `resend_media`: included only when truthy
(src/shortener.py:292-293). -/
def resendCaption (c : String) : Option String :=
  if c = "" then none else some c

def startText (first_name : String) : String :=
  "👋 *Welcome " ++ first_name ++ "!*\n\n" ++
  "Send any link or media with URLs in caption to shorten them.\n\n" ++
  "━━━━━━━━━━━━━━━━\n" ++
  "*⚙️ Setup*\n" ++
  "`/set_api YOUR_KEY` — Set your Viralbox API key\n\n" ++
  "*✏️ Caption Customization*\n" ++
  "`/set_header TEXT` — Add text above links\n" ++
  "`/set_footer TEXT` — Add text below links\n" ++
  "`/delete_header` — Remove header\n" ++
  "`/delete_footer` — Remove footer\n\n" ++
  "*🔄 Caption Mode*\n" ++
  "`/remove` — Remove original caption *(default)*\n" ++
  "`/keep` — Keep original caption as-is\n" ++
  "━━━━━━━━━━━━━━━━"

def setApiUsageText : String :=
  "❌ *Usage:* `/set_api YOUR_API_KEY`\n\n" ++
  "Example:\n`/set_api 030cd48a49cc4002ec50aeb10f3dc03ca0e84ce5`"

def apiSavedText : String := "✅ *API Key saved!* You can now send links to shorten."

def apiSaveFailedText : String := "❌ Failed to save API key. Please try again."

def setHeaderUsageText : String := "❌ *Usage:* `/set_header Your header text here`"

def headerSetText (v : String) : String := "✅ *Header set:*\n\n" ++ v

def headerSaveFailedText : String := "❌ Failed to save header. Try again."

def headerRemovedText : String := "✅ Header removed."

def headerRemoveFailedText : String := "❌ Failed to remove header. Try again."

def setFooterUsageText : String := "❌ *Usage:* `/set_footer Your footer text here`"

def footerSetText (v : String) : String := "✅ *Footer set:*\n\n" ++ v

def footerSaveFailedText : String := "❌ Failed to save footer. Try again."

def footerRemovedText : String := "✅ Footer removed."

def footerRemoveFailedText : String := "❌ Failed to remove footer. Try again."

def keepModeText : String :=
  "✅ *Mode: KEEP*\n\n" ++
  "Original caption will be kept as-is.\n" ++
  "Your header/footer (if set) will be added above/below it."

def removeModeText : String :=
  "✅ *Mode: REMOVE*\n\n" ++
  "Original caption will be removed.\n" ++
  "Only shortened links will be sent (with header/footer if set)."

def modeUpdateFailedText : String := "❌ Failed to update mode. Try again."

def apiKeyNoticeText : String :=
  "⚠️ *API Key not set!*\n\n" ++
  "Set your Viralbox API key first:\n" ++
  "`/set_api YOUR_API_KEY`"

def couldNotShortenText : String :=
  "❌ Could not shorten URL(s). Check your API key or try again."

/-- The shortened links collected by the per-URL loop
(src/shortener.py:439-445 and 477-483): each url is passed to
`shorten_url` and the successes are appended in order. -/
def shortenedOf (sh : String → Option String) (urls : List String) : List String :=
  urls.filterMap sh

/-- The successful `links` inserts of the per-URL loop: `save_to_db` is
called for each success and swallows its own failures, so the audit log
gains exactly the successes whose insert succeeded. -/
def linkWritesOf (sh : String → Option String) (ok : String → String → Bool)
    (urls : List String) : List (String × String) :=
  urls.filterMap (fun u => (sh u).bind (fun s => if ok u s then some (u, s) else none))

/-- Source `process_message(msg)` (src/shortener.py:303-494), with the
branching of the original rendered as nested conditionals in the same
order.  Replies and writes are collected in an `Effects` record instead
of being performed. -/
def process_message (env : Env) (msg : Msg) : Effects :=
  let chat_id := msg.chatId
  let user_id := msg.userId
  let first_name := msg.firstName.getD "User"
  let text := msgText msg
  if pyStartsWith text "/start" then
    { replies := [(chat_id, startText first_name)] }
  else if pyStartsWith text "/set_api" then
    let parts := pySplit1 text
    if parts.length < 2 ∨ pyStrip (parts.getD 1 "") = "" then
      { replies := [(chat_id, setApiUsageText)] }
    else
      let api_key := pyStrip (parts.getD 1 "")
      if env.apiSaveOk user_id api_key then
        { replies := [(chat_id, apiSavedText)],
          apiKeySetCalls := [(user_id, api_key)] }
      else
        { replies := [(chat_id, apiSaveFailedText)],
          apiKeySetCalls := [(user_id, api_key)] }
  else if pyStartsWith text "/set_header" then
    let parts := pySplit1 text
    if parts.length < 2 ∨ pyStrip (parts.getD 1 "") = "" then
      { replies := [(chat_id, setHeaderUsageText)] }
    else
      let header_text := pyStrip (parts.getD 1 "")
      if env.settingSetOk user_id "header" header_text then
        { replies := [(chat_id, headerSetText header_text)],
          settingSetCalls := [(user_id, "header", header_text)] }
      else
        { replies := [(chat_id, headerSaveFailedText)],
          settingSetCalls := [(user_id, "header", header_text)] }
  else if pyStartsWith text "/delete_header" then
    if env.settingDelOk user_id "header" then
      { replies := [(chat_id, headerRemovedText)],
        settingUnsetCalls := [(user_id, "header")] }
    else
      { replies := [(chat_id, headerRemoveFailedText)],
        settingUnsetCalls := [(user_id, "header")] }
  else if pyStartsWith text "/set_footer" then
    let parts := pySplit1 text
    if parts.length < 2 ∨ pyStrip (parts.getD 1 "") = "" then
      { replies := [(chat_id, setFooterUsageText)] }
    else
      let footer_text := pyStrip (parts.getD 1 "")
      if env.settingSetOk user_id "footer" footer_text then
        { replies := [(chat_id, footerSetText footer_text)],
          settingSetCalls := [(user_id, "footer", footer_text)] }
      else
        { replies := [(chat_id, footerSaveFailedText)],
          settingSetCalls := [(user_id, "footer", footer_text)] }
  else if pyStartsWith text "/delete_footer" then
    if env.settingDelOk user_id "footer" then
      { replies := [(chat_id, footerRemovedText)],
        settingUnsetCalls := [(user_id, "footer")] }
    else
      { replies := [(chat_id, footerRemoveFailedText)],
        settingUnsetCalls := [(user_id, "footer")] }
  else if text = "/keep" then
    if env.settingSetOk user_id "caption_mode" "keep" then
      { replies := [(chat_id, keepModeText)],
        settingSetCalls := [(user_id, "caption_mode", "keep")] }
    else
      { replies := [(chat_id, modeUpdateFailedText)],
        settingSetCalls := [(user_id, "caption_mode", "keep")] }
  else if text = "/remove" then
    if env.settingSetOk user_id "caption_mode" "remove" then
      { replies := [(chat_id, removeModeText)],
        settingSetCalls := [(user_id, "caption_mode", "remove")] }
    else
      { replies := [(chat_id, modeUpdateFailedText)],
        settingSetCalls := [(user_id, "caption_mode", "remove")] }
  else if pyStrFalsy (env.apiKeyStore user_id) then
    { replies := [(chat_id, apiKeyNoticeText)] }
  else
    let api_key := (env.apiKeyStore user_id).getD ""
    let settings := get_user_settings env.settingsStore user_id
    if text ≠ "" then
      let urls := extract_urls text
      if urls = [] then Effects.empty
      else
        let shortened_links := shortenedOf (env.shorten api_key) urls
        let writes := linkWritesOf (env.shorten api_key) env.linkInsertOk urls
        if shortened_links = [] then
          { replies := [(chat_id, couldNotShortenText)],
            shortenCalls := urls, linkWrites := writes }
        else
          { replies := [(chat_id, build_caption shortened_links text settings)],
            shortenCalls := urls, linkWrites := writes }
    else
      match msg.media with
      | none => Effects.empty
      | some (kind, file_id) =>
        let original_caption := msg.caption.getD ""
        let urls := extract_urls original_caption
        if urls = [] then
          if settings.header ≠ "" ∨ settings.footer ≠ "" then
            let new_caption := build_caption [] original_caption settings
            { mediaOut := [(chat_id, kind, file_id,
                resendCaption (if new_caption ≠ "" then new_caption else original_caption))] }
          else Effects.empty
        else
          let shortened_links := shortenedOf (env.shorten api_key) urls
          let writes := linkWritesOf (env.shorten api_key) env.linkInsertOk urls
          if shortened_links = [] then
            { replies := [(chat_id, couldNotShortenText)],
              shortenCalls := urls, linkWrites := writes }
          else
            { mediaOut := [(chat_id, kind, file_id,
                resendCaption (build_caption shortened_links original_caption settings))],
              shortenCalls := urls, linkWrites := writes }

/-- A parsed webhook update envelope: the optional `message` object. -/
structure Update where
  message : Option Msg
deriving DecidableEq

/-- Outcome of one `do_POST` call: HTTP status sent back, and the message
handed to a processing task, if any. -/
structure PostResponse where
  status : Nat
  dispatched : Option Msg
deriving DecidableEq

/-- Source `WebhookHandler.do_POST` (src/shortener.py:67-93).  `body` is
the result of `json.loads` on the request body: `none` models any
exception inside the `try` block before dispatch (malformed JSON or a
non-object envelope), which the source answers with status 500; a parsed
envelope is answered 200 and its `message`, when present, is handed to a
new processing thread. -/
def do_POST (botToken : String) (path : String) (body : Option Update) :
    PostResponse :=
  if path = "/" ++ botToken then
    match body with
    | some update => { status := 200, dispatched := update.message }
    | none => { status := 500, dispatched := none }
  else
    { status := 404, dispatched := none }

/-- A message text matches none of the dispatcher's command checks
(src/shortener.py:313-417), so processing falls through to the default
link-handling path. -/
abbrev noCommand (t : String) : Prop :=
  pyStartsWith t "/start" = false ∧
  pyStartsWith t "/set_api" = false ∧
  pyStartsWith t "/set_header" = false ∧
  pyStartsWith t "/delete_header" = false ∧
  pyStartsWith t "/set_footer" = false ∧
  pyStartsWith t "/delete_footer" = false ∧
  t ≠ "/keep" ∧
  t ≠ "/remove"

/-- Concrete environment used by witness and counterexample inputs: no
stored key, no stored settings, every shortening call fails, every
database write succeeds. -/
def envNoKey : Env :=
  ⟨fun _ => none, fun _ => none, fun _ _ => none,
   fun _ _ => true, fun _ _ => true, fun _ _ _ => true, fun _ _ => true⟩

/-- Like `envNoKey` but with a stored API key `"K"` for every user. -/
def envKeyAllFail : Env := { envNoKey with apiKeyStore := fun _ => some "K" }

/-- Environment where the key is stored and every shortening call
succeeds, producing `"short:" ++ url`. -/
def envKeyAllOk : Env :=
  { envNoKey with
    apiKeyStore := fun _ => some "K",
    shorten := fun _ u => some ("short:" ++ u) }

/-- A plain text message from chat 1, user 2. -/
def textMsg (t : String) : Msg := ⟨1, 2, none, none, some t, none, none⟩

/-!  Theorems.  Each claim `Cn` of the specification is settled below;
helper lemmas come first. -/

theorem extractUrlsAux_nil (f : Nat) : extractUrlsAux f [] = [] := by
  cases f <;> rfl

theorem extractUrlsAux_fuel :
    ∀ (f g : Nat) (l : List Char), l.length ≤ f → l.length ≤ g →
      extractUrlsAux f l = extractUrlsAux g l := by
  intro f
  induction f with
  | zero =>
    intro g l hf _
    have hl : l = [] := List.length_eq_zero.mp (Nat.le_zero.mp hf)
    subst hl
    rw [extractUrlsAux_nil, extractUrlsAux_nil]
  | succ f ih =>
    intro g l hf hg
    cases l with
    | nil => rw [extractUrlsAux_nil, extractUrlsAux_nil]
    | cons c rest =>
      cases g with
      | zero => simp at hg
      | succ g =>
        simp only [List.length_cons] at hf hg
        simp only [extractUrlsAux]
        cases hs : schemeLen (c :: rest) with
        | none => exact ih g rest (by omega) (by omega)
        | some k =>
          dsimp only
          by_cases hk : k < ((c :: rest).takeWhile notSpace).length
          · rw [if_pos hk, if_pos hk]
            have hlen : ((c :: rest).drop ((c :: rest).takeWhile notSpace).length).length
                = rest.length + 1 - ((c :: rest).takeWhile notSpace).length := by
              rw [List.length_drop, List.length_cons]
            exact congrArg _ (ih g _ (by omega) (by omega))
          · rw [if_neg hk, if_neg hk]
            exact ih g rest (by omega) (by omega)

theorem specScanAux_eq :
    ∀ (fuel : Nat) (s : List Char) (i : Nat), s.length ≤ i + fuel →
      specScanAux s fuel i = extractUrlsAux (s.drop i).length (s.drop i) := by
  intro fuel
  induction fuel with
  | zero =>
    intro s i h
    rw [Nat.add_zero] at h
    rw [List.drop_of_length_le h]
    rfl
  | succ fuel ih =>
    intro s i h
    cases hd : s.drop i with
    | nil =>
      have hle : s.length ≤ i := List.drop_eq_nil_iff.mp hd
      simp only [specScanAux, hd]
      have hsl : schemeLen ([] : List Char) = none := rfl
      rw [hsl]
      rw [if_neg (by omega)]
      rfl
    | cons c rest =>
      have hrest : rest = s.drop (i + 1) := by
        calc rest = List.drop 1 (c :: rest) := rfl
        _ = List.drop 1 (s.drop i) := by rw [hd]
        _ = s.drop (i + 1) := List.drop_drop 1 i s
      have hlt : i < s.length := by
        have : s.drop i ≠ [] := by rw [hd]; exact List.cons_ne_nil c rest
        exact List.length_lt_of_drop_ne_nil this
      simp only [specScanAux, hd, List.length_cons]
      simp only [extractUrlsAux]
      cases hs : schemeLen (c :: rest) with
      | none =>
        dsimp only
        rw [if_pos hlt, ih s (i + 1) (by omega), ← hrest]
      | some k =>
        dsimp only
        by_cases hk : k < ((c :: rest).takeWhile notSpace).length
        · rw [if_pos hk, if_pos hk]
          refine congrArg _ ?_
          have hdd : List.drop ((c :: rest).takeWhile notSpace).length (s.drop i)
              = s.drop (i + ((c :: rest).takeWhile notSpace).length) :=
            List.drop_drop _ i s
          rw [ih s (i + ((c :: rest).takeWhile notSpace).length) (by omega)]
          rw [← hdd, hd]
          refine extractUrlsAux_fuel _ _ _ (le_refl _) ?_
          rw [List.length_drop, List.length_cons]
          omega
        · rw [if_neg hk, if_neg hk]
          rw [ih s (i + 1) (by omega), ← hrest]

theorem extractUrlsAux_no_scheme :
    ∀ (f : Nat) (l : List Char),
      (∀ i, i < l.length → schemeLen (l.drop i) = none) →
      extractUrlsAux f l = [] := by
  intro f
  induction f with
  | zero => intro l _; cases l <;> rfl
  | succ f ih =>
    intro l h
    cases l with
    | nil => rfl
    | cons c rest =>
      have h0 : schemeLen (c :: rest) = none := by
        have := h 0 (by simp)
        simpa using this
      simp only [extractUrlsAux, h0]
      exact ih rest (fun i hi => by
        have := h (i + 1) (by simp only [List.length_cons]; omega)
        simpa using this)

/-- C3, counterexample.  The claim reads `extractUrls` as returning every
substring that starts with a scheme and continues until the first
whitespace; at `"http:// x"` that reading yields `["http://"]`, but the
source regex `https?://[^\s]+` demands at least one non-whitespace
character after the scheme, so the code returns `[]`. -/
theorem c3_counterexample :
    extract_urls "http:// x" = [] ∧
    claimUrls "http:// x" = ["http://"] ∧
    extract_urls "http:// x" ≠ claimUrls "http:// x" := by decide

/-- C3, amended: `extractUrls` returns exactly the matches of a
left-to-right non-overlapping scan in which each match starts with
`http://` or `https://`, must be followed by at least one non-whitespace
character, extends to the first whitespace, and scanning resumes after
each match; order of appearance and duplicates are preserved, and empty
input or text with no scheme occurrence yields the empty sequence. -/
theorem c3_amended :
    (∀ s : String, extract_urls s = specUrls s) ∧
    extract_urls "" = [] ∧
    (∀ s : String,
      (∀ i, i < s.toList.length → schemeLen (s.toList.drop i) = none) →
      extract_urls s = []) ∧
    extract_urls "see http://a.com and http://b.com and http://a.com" =
      ["http://a.com", "http://b.com", "http://a.com"] := by
  refine ⟨?_, rfl, ?_, by decide⟩
  · intro s
    rw [extract_urls, specUrls, specScanAux_eq s.toList.length s.toList 0 (by omega),
      List.drop_zero]
  · intro s h
    exact extractUrlsAux_no_scheme _ _ h

/-- C3, witness for the amended theorem: a text with no scheme occurrence
extracts to the empty sequence. -/
theorem c3_amended_witness : extract_urls "no links in this text" = [] :=
  c3_amended.2.2.1 "no links in this text" (by decide)

theorem build_caption_remove_caption_irrel (links : List String)
    (c c2 : String) (s : UserSettings) (hm : s.caption_mode = "remove") :
    build_caption links c s = build_caption links c2 s := by
  simp [build_caption, hm]

/-- C1, counterexample.  The claim predicts the KEEP-mode output joins
the raw header; the source strips header and footer first
(src/shortener.py:209-210), so at `header = " H "` the output is
`"H\nc"`, not the claimed `" H \nc"`. -/
theorem c1_counterexample :
    build_caption [] "c" ⟨" H ", "", "keep"⟩ = "H\nc" ∧
    claimComposeKeep " H " "c" "" = " H \nc" ∧
    build_caption [] "c" ⟨" H ", "", "keep"⟩ ≠ claimComposeKeep " H " "c" "" := by
  decide

/-- C1, amended: with `captionMode = KEEP`, `compose` returns the
newline-join of [stripped header if non-empty] ++ [original caption
trimmed, if non-empty] ++ [stripped footer if non-empty], and the
shortened-links argument never appears: for any two link sequences the
outputs are equal. -/
theorem c1_amended (links : List String) (caption : String)
    (s : UserSettings) (hm : s.caption_mode = "keep") :
    build_caption links caption s =
      claimComposeKeep (pyStrip s.header) caption (pyStrip s.footer) ∧
    ∀ links2 : List String,
      build_caption links2 caption s = build_caption links caption s := by
  have hcond : (caption ≠ "" ∧ pyStrip caption ≠ "") ↔ pyStrip caption ≠ "" := by
    constructor
    · exact fun h => h.2
    · intro h
      refine ⟨fun hc => ?_, h⟩
      subst hc
      exact h rfl
  constructor
  · simp only [build_caption, claimComposeKeep, hm]
    simp only [hcond]
    simp
  · intro links2
    simp [build_caption, hm]

/-- C1, witness for the amended theorem at concrete inputs. -/
theorem c1_amended_witness :
    build_caption ["http://sh.rt/1"] " cap " ⟨" H ", "F ", "keep"⟩ =
      claimComposeKeep "H" " cap " "F" :=
  (c1_amended ["http://sh.rt/1"] " cap " ⟨" H ", "F ", "keep"⟩ rfl).1

/-- C2, counterexample.  The claim predicts the REMOVE-mode output joins
the raw header; the source strips header and footer first, so at
`header = " H "` the output is `"H\ns\nF"`, not the claimed
`" H \ns\nF"`. -/
theorem c2_counterexample :
    build_caption ["s"] "c" ⟨" H ", "F", "remove"⟩ = "H\ns\nF" ∧
    claimComposeRemove " H " ["s"] "F" = " H \ns\nF" ∧
    build_caption ["s"] "c" ⟨" H ", "F", "remove"⟩ ≠
      claimComposeRemove " H " ["s"] "F" := by
  decide

/-- C2, amended: with `captionMode = REMOVE`, `compose` returns the
newline-join of [stripped header if non-empty] ++ [each shortened link,
one per line] ++ [stripped footer if non-empty]; the original caption
never appears (the output is caption-independent), and the claim's two
concrete instances hold. -/
theorem c2_amended (links : List String) (caption : String)
    (s : UserSettings) (hm : s.caption_mode = "remove") :
    build_caption links caption s =
      claimComposeRemove (pyStrip s.header) links (pyStrip s.footer) ∧
    (∀ c2 : String, build_caption links c2 s = build_caption links caption s) ∧
    (∀ c2 : String, build_caption [] c2 ⟨"H", "F", "remove"⟩ = "H\nF") ∧
    build_caption ["s1", "s2"] "orig" ⟨"", "", "remove"⟩ = "s1\ns2" := by
  refine ⟨?_, ?_, ?_, by decide⟩
  · simp [build_caption, claimComposeRemove, hm]
  · intro c2
    exact build_caption_remove_caption_irrel links c2 caption s hm
  · intro c2
    rw [build_caption_remove_caption_irrel [] c2 "" ⟨"H", "F", "remove"⟩ rfl]
    decide

/-- C2, witness for the amended theorem at concrete inputs. -/
theorem c2_amended_witness :
    build_caption ["a", "b"] "orig cap" ⟨" H ", " F ", "remove"⟩ =
      claimComposeRemove "H" ["a", "b"] "F" :=
  (c2_amended ["a", "b"] "orig cap" ⟨" H ", " F ", "remove"⟩ rfl).1

/-- C8: for every user and each settable field, `unsetField` followed by
`getSettings` yields the documented default for that field: `""` for
header and footer, `"remove"` for the caption mode (never a stored
empty-string value standing in for the caption-mode default). -/
theorem c8_confirmed (store : Int → Option SettingsDoc) (user_id : Int) :
    (get_user_settings (delete_user_setting store user_id "header") user_id).header = "" ∧
    (get_user_settings (delete_user_setting store user_id "footer") user_id).footer = "" ∧
    (get_user_settings (delete_user_setting store user_id "caption_mode") user_id).caption_mode
      = "remove" := by
  refine ⟨?_, ?_, ?_⟩ <;>
    cases h : store user_id <;>
      simp [get_user_settings, delete_user_setting, clearDocField, h]

/-- C9, counterexample.  On the bot path with a body that fails to parse,
the source answers HTTP 500 (src/shortener.py:87-90), a server error and
not the claimed client error (4xx); no processing task is dispatched. -/
theorem c9_counterexample :
    (do_POST "TOKEN" "/TOKEN" none).status = 500 ∧
    ¬(400 ≤ (do_POST "TOKEN" "/TOKEN" none).status ∧
        (do_POST "TOKEN" "/TOKEN" none).status < 500) ∧
    (do_POST "TOKEN" "/TOKEN" none).dispatched = none := by
  decide

/-- C9, amended: for every POST to the bot's path whose body fails to
parse as a valid JSON envelope, the handler responds with a server-error
(500) acknowledgment and no processing task is dispatched. -/
theorem c9_amended (botToken : String) :
    (do_POST botToken ("/" ++ botToken) none).status = 500 ∧
    (do_POST botToken ("/" ++ botToken) none).dispatched = none := by
  unfold do_POST
  rw [if_pos rfl]
  exact ⟨rfl, rfl⟩

theorem initial_initial :
    ∀ (p q l : List Char), listIsInitial p l = true → listIsInitial q l = true →
      p.length ≤ q.length → listIsInitial p q = true := by
  intro p
  induction p with
  | nil => intros; rfl
  | cons a as ih =>
    intro q l hp hq hlen
    cases l with
    | nil => simp [listIsInitial] at hp
    | cons b bs =>
      cases q with
      | nil => simp at hlen
      | cons c cs =>
        simp only [listIsInitial, Bool.and_eq_true, beq_iff_eq] at hp hq ⊢
        obtain ⟨hab, hp2⟩ := hp
        obtain ⟨hcb, hq2⟩ := hq
        exact ⟨hab.trans hcb.symm, ih cs bs hp2 hq2 (by simpa using hlen)⟩

/-- If `t` starts with `q` and `p` is not an initial segment of `q`
while being no longer than `q`, then `t` does not start with `p`. -/
theorem notBoth (t p q : String)
    (hpq : listIsInitial p.toList q.toList = false)
    (hlen : p.toList.length ≤ q.toList.length)
    (hq : pyStartsWith t q = true) : pyStartsWith t p = false := by
  cases hc : pyStartsWith t p
  · rfl
  · have := initial_initial p.toList q.toList t.toList hc hq hlen
    rw [this] at hpq
    exact absurd hpq (by simp)

/-- C5: a message matching no command, from a user with no stored API
key, produces exactly one configuration-required reply and nothing else:
in particular zero shortening calls, whether or not the text carries
URLs. -/
theorem c5_confirmed (env : Env) (msg : Msg)
    (hnc : noCommand (msgText msg))
    (hkey : env.apiKeyStore msg.userId = none) :
    process_message env msg =
      { replies := [(msg.chatId, apiKeyNoticeText)] } := by
  obtain ⟨h1, h2, h3, h4, h5, h6, h7, h8⟩ := hnc
  simp [process_message, h1, h2, h3, h4, h5, h6, h7, h8, hkey, pyStrFalsy]

/-- C5, witness: a URL-bearing text message and an empty credential
store. -/
theorem c5_witness :
    process_message envNoKey (textMsg "check http://a.com out") =
      { replies := [(1, apiKeyNoticeText)] } :=
  c5_confirmed envNoKey (textMsg "check http://a.com out") (by decide) rfl

/-- C7: a message whose trimmed text is exactly `/set_api` (i.e. an
empty or whitespace-only remainder) yields only the usage-error reply;
no call to `save_user_api_key` is made, so the stored key (or its
absence) is unchanged. -/
theorem c7_confirmed (env : Env) (msg : Msg)
    (h : msgText msg = "/set_api") :
    process_message env msg = { replies := [(msg.chatId, setApiUsageText)] } ∧
    (process_message env msg).apiKeySetCalls = [] := by
  have hmain : process_message env msg
      = { replies := [(msg.chatId, setApiUsageText)] } := by
    simp only [process_message, h]
    rw [show pyStartsWith "/set_api" "/start" = false from by decide,
      show pyStartsWith "/set_api" "/set_api" = true from by decide,
      show pySplit1 "/set_api" = ["/set_api"] from by decide]
    simp
  exact ⟨hmain, by rw [hmain]⟩

/-- C7, witness: the raw text `"  /set_api   "` trims to `/set_api`. -/
theorem c7_witness :
    process_message envKeyAllOk (textMsg "  /set_api   ") =
      { replies := [(1, setApiUsageText)] } :=
  (c7_confirmed envKeyAllOk (textMsg "  /set_api   ") (by decide)).1

theorem shortenedOf_eq_nil (sh : String → Option String) (urls : List String)
    (h : ∀ u ∈ urls, sh u = none) : shortenedOf sh urls = [] :=
  List.filterMap_eq_nil_iff.mpr h

theorem linkWritesOf_eq_nil (sh : String → Option String)
    (ok : String → String → Bool) (urls : List String)
    (h : ∀ u ∈ urls, sh u = none) : linkWritesOf sh ok urls = [] :=
  List.filterMap_eq_nil_iff.mpr (fun u hu => by rw [h u hu]; rfl)

/-- C6: on the default path, when URLs are extracted (from the text, or
from the caption of a media message) and every shortening call fails,
processing sends exactly one could-not-shorten notice, appends zero
records to the `links` audit log, and re-sends no media; per-URL
failures produce no message of their own. -/
theorem c6_confirmed (env : Env) (msg : Msg) (key : String)
    (hnc : noCommand (msgText msg))
    (hkey : env.apiKeyStore msg.userId = some key)
    (hkne : key ≠ "")
    (hcase :
      (msgText msg ≠ "" ∧ extract_urls (msgText msg) ≠ [] ∧
        ∀ u ∈ extract_urls (msgText msg), env.shorten key u = none) ∨
      (msgText msg = "" ∧ msg.media.isSome ∧
        extract_urls (msg.caption.getD "") ≠ [] ∧
        ∀ u ∈ extract_urls (msg.caption.getD ""), env.shorten key u = none)) :
    (process_message env msg).replies = [(msg.chatId, couldNotShortenText)] ∧
    (process_message env msg).linkWrites = [] ∧
    (process_message env msg).mediaOut = [] := by
  obtain ⟨h1, h2, h3, h4, h5, h6, h7, h8⟩ := hnc
  have hfalsy : pyStrFalsy (some key) = false := by
    simpa [pyStrFalsy] using hkne
  rcases hcase with ⟨ht, hurls, hfail⟩ | ⟨ht, hmed, hurls, hfail⟩
  · have hS := shortenedOf_eq_nil (env.shorten key) _ hfail
    have hW := linkWritesOf_eq_nil (env.shorten key) env.linkInsertOk _ hfail
    have hrec : process_message env msg =
        { replies := [(msg.chatId, couldNotShortenText)],
          shortenCalls := extract_urls (msgText msg), linkWrites := [] } := by
      simp [process_message, h1, h2, h3, h4, h5, h6, h7, h8, hkey, hfalsy,
        ht, hurls, hS, hW]
    rw [hrec]
    exact ⟨rfl, rfl, rfl⟩
  · obtain ⟨⟨kind, file_id⟩, hm⟩ := Option.isSome_iff_exists.mp hmed
    have htn : ¬(msgText msg ≠ "") := fun hne => hne ht
    have hS := shortenedOf_eq_nil (env.shorten key) _ hfail
    have hW := linkWritesOf_eq_nil (env.shorten key) env.linkInsertOk _ hfail
    have hrec : process_message env msg =
        { replies := [(msg.chatId, couldNotShortenText)],
          shortenCalls := extract_urls (msg.caption.getD ""), linkWrites := [] } := by
      simp [process_message, h1, h2, h3, h4, h5, h6, h7, h8, hkey, hfalsy,
        htn, hm, hurls, hS, hW]
    rw [hrec]
    exact ⟨rfl, rfl, rfl⟩

/-- C6, witness: a text message with a URL, a stored key, and a
shortening service that always fails. -/
theorem c6_witness :
    (process_message envKeyAllFail (textMsg "go http://x.y now")).replies
      = [(1, couldNotShortenText)] ∧
    (process_message envKeyAllFail (textMsg "go http://x.y now")).linkWrites = [] :=
  have h := c6_confirmed envKeyAllFail (textMsg "go http://x.y now") "K"
    (by decide) rfl (by decide) (Or.inl ⟨by decide, by decide, by decide⟩)
  ⟨h.1, h.2.1⟩

/-- C10: if any URL of a default-path text message shortens successfully,
the reply is the composed caption over the successful links (which
contain that shortened URL), and it is the same whatever the outcome of
the audit-log inserts: a `save_to_db` failure is swallowed, never
surfaced to the user. -/
theorem c10_confirmed (env : Env) (msg : Msg) (key u s : String)
    (hnc : noCommand (msgText msg))
    (hkey : env.apiKeyStore msg.userId = some key)
    (hkne : key ≠ "")
    (ht : msgText msg ≠ "")
    (hu : u ∈ extract_urls (msgText msg))
    (hs : env.shorten key u = some s) :
    s ∈ shortenedOf (env.shorten key) (extract_urls (msgText msg)) ∧
    ∀ ok : String → String → Bool,
      (process_message { env with linkInsertOk := ok } msg).replies =
        [(msg.chatId,
          build_caption (shortenedOf (env.shorten key) (extract_urls (msgText msg)))
            (msgText msg) (get_user_settings env.settingsStore msg.userId))] := by
  obtain ⟨h1, h2, h3, h4, h5, h6, h7, h8⟩ := hnc
  have hmem : s ∈ shortenedOf (env.shorten key) (extract_urls (msgText msg)) :=
    List.mem_filterMap.mpr ⟨u, hu, hs⟩
  refine ⟨hmem, fun ok => ?_⟩
  have hfalsy : pyStrFalsy (some key) = false := by
    simpa [pyStrFalsy] using hkne
  have hurls : extract_urls (msgText msg) ≠ [] := by
    intro hnil
    rw [hnil] at hu
    exact absurd hu (List.not_mem_nil u)
  have hsne : shortenedOf (env.shorten key) (extract_urls (msgText msg)) ≠ [] :=
    List.ne_nil_of_mem hmem
  have hrec : process_message { env with linkInsertOk := ok } msg =
      { replies := [(msg.chatId,
          build_caption (shortenedOf (env.shorten key) (extract_urls (msgText msg)))
            (msgText msg) (get_user_settings env.settingsStore msg.userId))],
        shortenCalls := extract_urls (msgText msg),
        linkWrites := linkWritesOf (env.shorten key) ok (extract_urls (msgText msg)) } := by
    simp [process_message, h1, h2, h3, h4, h5, h6, h7, h8, hkey, hfalsy,
      ht, hurls, hsne]
  rw [hrec]

/-- C10, witness: one URL, shortening succeeds, and the reply is the
same whether the audit-log insert succeeds or fails. -/
theorem c10_witness :
    "short:http://a.b" ∈ shortenedOf (envKeyAllOk.shorten "K")
      (extract_urls (msgText (textMsg "go http://a.b"))) ∧
    (process_message { envKeyAllOk with linkInsertOk := fun _ _ => false }
        (textMsg "go http://a.b")).replies =
      [(1, build_caption
        (shortenedOf (envKeyAllOk.shorten "K") (extract_urls (msgText (textMsg "go http://a.b"))))
        (msgText (textMsg "go http://a.b"))
        (get_user_settings envKeyAllOk.settingsStore 2))] :=
  have h := c10_confirmed envKeyAllOk (textMsg "go http://a.b") "K" "http://a.b"
    "short:http://a.b" (by decide) rfl (by decide) (by decide) (by decide) rfl
  ⟨h.1, h.2 (fun _ _ => false)⟩

/-- C4, counterexample.  The source matches `/delete_header` with
`startswith` (src/shortener.py:365), not exact equality: the trimmed
text `"/delete_headerzz"` differs from `"/delete_header"` yet the
dispatcher still calls `delete_user_setting(user, "header")`, which the
claim forbids. -/
theorem c4_counterexample :
    msgText (textMsg "/delete_headerzz") ≠ "/delete_header" ∧
    (process_message envKeyAllOk (textMsg "/delete_headerzz")).settingUnsetCalls
      = [(2, "header")] := by
  exact ⟨by decide, by decide⟩

/-- C4, amended: the dispatcher routes to `unsetField` for the header
(resp. footer) exactly when the trimmed text starts with
`/delete_header` (resp. `/delete_footer`) — a prefix match, not an exact
one; any other text triggers no `unsetField` call. -/
theorem c4_amended (env : Env) (msg : Msg) :
    (process_message env msg).settingUnsetCalls =
      (if pyStartsWith (msgText msg) "/delete_header" = true then
        [(msg.userId, "header")]
      else if pyStartsWith (msgText msg) "/delete_footer" = true then
        [(msg.userId, "footer")]
      else []) := by
  by_cases hdh : pyStartsWith (msgText msg) "/delete_header" = true
  · have h1 := notBoth (msgText msg) "/start" "/delete_header"
      (by decide) (by decide) hdh
    have h2 := notBoth (msgText msg) "/set_api" "/delete_header"
      (by decide) (by decide) hdh
    have h3 := notBoth (msgText msg) "/set_header" "/delete_header"
      (by decide) (by decide) hdh
    by_cases hdel : env.settingDelOk msg.userId "header" = true <;>
      simp [process_message, h1, h2, h3, hdh, hdel]
  · by_cases hdf : pyStartsWith (msgText msg) "/delete_footer" = true
    · have h1 := notBoth (msgText msg) "/start" "/delete_footer"
        (by decide) (by decide) hdf
      have h2 := notBoth (msgText msg) "/set_api" "/delete_footer"
        (by decide) (by decide) hdf
      have h3 := notBoth (msgText msg) "/set_header" "/delete_footer"
        (by decide) (by decide) hdf
      have h5 := notBoth (msgText msg) "/set_footer" "/delete_footer"
        (by decide) (by decide) hdf
      rw [Bool.not_eq_true] at hdh
      by_cases hdel : env.settingDelOk msg.userId "footer" = true <;>
        simp [process_message, h1, h2, h3, h5, hdh, hdf, hdel]
    · rw [Bool.not_eq_true] at hdh hdf
      rw [if_neg (by simp [hdh]), if_neg (by simp [hdf])]
      cases hm : msg.media with
      | none =>
        simp [process_message, hdh, hdf, hm,
          apply_ite Effects.settingUnsetCalls, Effects.empty, ite_self]
      | some m =>
        obtain ⟨kind, fid⟩ := m
        simp [process_message, hdh, hdf, hm,
          apply_ite Effects.settingUnsetCalls, Effects.empty, ite_self]

end Viralbox
